import Mathlib

/-!
Verification of the Stockcount inventory application's session and
count-recording logic, shallowly embedded from the TypeScript source.

Entities carry opaque string identifiers, as in the hosted database.
Quantities submitted from the form are rationals (JavaScript numbers before
`Math.floor`); persisted quantities are integers.
-/

namespace StockApp

/-- One entry of the in-page `counts` record passed to `saveCounts`:
an item identifier with the submitted boxes and singles values. -/
structure CountInput where
  item_id : String
  boxes : ℚ
  singles : ℚ
deriving DecidableEq, Repr

/-- A persisted `stock_counts` row. -/
structure StockCountRow where
  session_id : String
  shop_id : String
  item_id : String
  boxes : ℤ
  singles : ℤ
  counted_by : String
deriving DecidableEq, Repr

/-- `Math.max(0, Math.min(999999, Math.floor(v)))` from `saveCounts` and
`updateCount`. -/
def clampQty (v : ℚ) : ℤ :=
  max 0 (min 999999 ⌊v⌋)

/-- Whether a stored row matches the composite key (session, shop, item). -/
def keyMatches (r : StockCountRow) (s sh it : String) : Bool :=
  r.session_id = s && r.shop_id = sh && r.item_id = it

/-- One keyed upsert on the `stock_counts` table
(`onConflict: 'session_id,shop_id,item_id'`): a row with the same key is
replaced wholesale, otherwise the new row is inserted. -/
def upsertRow (db : List StockCountRow) (r : StockCountRow) : List StockCountRow :=
  if db.any (fun x => keyMatches x r.session_id r.shop_id r.item_id) then
    db.map (fun x => if keyMatches x r.session_id r.shop_id r.item_id then r else x)
  else
    db ++ [r]

/-- The bulk upsert of `countsToSave`. -/
def upsertAll (db : List StockCountRow) (rs : List StockCountRow) : List StockCountRow :=
  rs.foldl upsertRow db

/-- Lookup of the stored row for a composite key. -/
def findCount (db : List StockCountRow) (s sh it : String) : Option StockCountRow :=
  db.find? (fun r => keyMatches r s sh it)

/-- The filter on `Object.values(counts)` in `saveCounts`: an entry survives
when its clamped boxes or singles are positive. -/
def survives (c : CountInput) : Bool :=
  decide (0 < clampQty c.boxes) || decide (0 < clampQty c.singles)

/-- One element of `countsToSave`: the validated row built from an input. -/
def toRow (sess shop uid : String) (c : CountInput) : StockCountRow :=
  { session_id := sess
    shop_id := shop
    item_id := c.item_id
    boxes := clampQty c.boxes
    singles := clampQty c.singles
    counted_by := uid }

/-- The rejection branches of `saveCounts`, in source order. -/
inductive SaveError where
  | noSelection
  | notLoggedIn
  | sessionNotActive
  | noShopAccess
  | nothingToSave
deriving DecidableEq, Repr

/-- The `saveCounts` function: guard checks in source order, then the filtered
write set is applied as one keyed upsert.  `sessionStatus` is the status read
back from `stock_count_sessions` at write time; `hasShopAssignment` is whether
the `user_shop_assignments` lookup found a row. -/
def saveCounts (sessionStatus role : String) (hasShopAssignment : Bool)
    (selectedSession selectedShop : String) (userId : Option String)
    (counts : List CountInput) (db : List StockCountRow) :
    Except SaveError (List StockCountRow) :=
  if selectedSession = "" ∨ selectedShop = "" then .error .noSelection
  else
    match userId with
    | none => .error .notLoggedIn
    | some uid =>
      if sessionStatus ≠ "active" then .error .sessionNotActive
      else if role = "employee" ∧ hasShopAssignment = false then .error .noShopAccess
      else
        if (counts.filter survives).length = 0 then .error .nothingToSave
        else .ok (upsertAll db
          ((counts.filter survives).map (toRow selectedSession selectedShop uid)))

/-- The state of the `stock_counts` table after a `saveCounts` call: unchanged
on any rejection, the upsert result on success. -/
def saveCountsDB (sessionStatus role : String) (hasShopAssignment : Bool)
    (selectedSession selectedShop : String) (userId : Option String)
    (counts : List CountInput) (db : List StockCountRow) : List StockCountRow :=
  match saveCounts sessionStatus role hasShopAssignment selectedSession selectedShop
      userId counts db with
  | .error _ => db
  | .ok db2 => db2

/-- The composite key of a stored row. -/
def rowKey (r : StockCountRow) : String × String × String :=
  (r.session_id, r.shop_id, r.item_id)

lemma keyMatches_eq_true {r : StockCountRow} {s sh it : String} :
    keyMatches r s sh it = true ↔ r.session_id = s ∧ r.shop_id = sh ∧ r.item_id = it := by
  simp [keyMatches, and_assoc]

lemma keyMatches_self (r : StockCountRow) :
    keyMatches r r.session_id r.shop_id r.item_id = true := by
  simp [keyMatches]

lemma keyMatches_eq_of_keyMatches {x r : StockCountRow} {s sh it : String}
    (h : keyMatches x r.session_id r.shop_id r.item_id = true) :
    keyMatches x s sh it = keyMatches r s sh it := by
  rcases keyMatches_eq_true.mp h with ⟨h1, h2, h3⟩
  simp [keyMatches, h1, h2, h3]

lemma find?_map_ite_self {α : Type} (p : α → Bool) (r : α) (hp : p r = true) :
    ∀ l : List α, l.any p = true →
      (l.map (fun x => if p x then r else x)).find? p = some r := by
  intro l
  induction l with
  | nil => simp
  | cons a l ih =>
    intro h
    by_cases ha : p a = true
    · simp [ha, hp]
    · simp only [Bool.not_eq_true] at ha
      simp only [List.any_cons, ha, Bool.false_or] at h
      simp [ha, ih h]

lemma find?_map_ite_of_ne {α : Type} (p q : α → Bool) (r : α) (hr : q r = false)
    (hpq : ∀ x, p x = true → q x = false) :
    ∀ l : List α, (l.map (fun x => if p x then r else x)).find? q = l.find? q := by
  intro l
  induction l with
  | nil => simp
  | cons a l ih =>
    by_cases ha : p a = true
    · have hqa : q a = false := hpq a ha
      simp [ha, hr, hqa, ih]
    · simp only [Bool.not_eq_true] at ha
      by_cases hqa : q a = true
      · simp [ha, hqa]
      · simp only [Bool.not_eq_true] at hqa
        simp [ha, hqa, ih]

lemma findCount_upsertRow_self (db : List StockCountRow) (r : StockCountRow) :
    findCount (upsertRow db r) r.session_id r.shop_id r.item_id = some r := by
  unfold upsertRow findCount
  by_cases h : db.any (fun x => keyMatches x r.session_id r.shop_id r.item_id) = true
  · simp only [h, if_true]
    exact find?_map_ite_self _ r (keyMatches_self r) db h
  · simp only [Bool.not_eq_true] at h
    simp only [h, Bool.false_eq_true, if_false, List.find?_append]
    have hnone : db.find? (fun x => keyMatches x r.session_id r.shop_id r.item_id) = none := by
      rw [List.find?_eq_none]
      intro x hx
      intro hkx
      rw [List.any_eq_false] at h
      exact absurd hkx (by simpa using h x hx)
    rw [hnone]
    simp [keyMatches_self r]

lemma findCount_upsertRow_of_ne (db : List StockCountRow) (r : StockCountRow)
    (s sh it : String) (h : keyMatches r s sh it = false) :
    findCount (upsertRow db r) s sh it = findCount db s sh it := by
  unfold upsertRow findCount
  by_cases hany : db.any (fun x => keyMatches x r.session_id r.shop_id r.item_id) = true
  · simp only [hany, if_true]
    refine find?_map_ite_of_ne _ _ r h ?_ db
    intro x hx
    rw [keyMatches_eq_of_keyMatches hx]
    exact h
  · simp only [Bool.not_eq_true] at hany
    simp only [hany, Bool.false_eq_true, if_false, List.find?_append]
    simp [h]

lemma findCount_upsertAll_of_forall_ne (rs : List StockCountRow) (s sh it : String)
    (h : ∀ r ∈ rs, keyMatches r s sh it = false) :
    ∀ db : List StockCountRow, findCount (upsertAll db rs) s sh it = findCount db s sh it := by
  induction rs with
  | nil => intro db; rfl
  | cons r rs ih =>
    intro db
    rw [upsertAll, List.foldl_cons]
    have step := findCount_upsertRow_of_ne db r s sh it (h r (List.mem_cons_self r rs))
    calc findCount (upsertAll (upsertRow db r) rs) s sh it
        = findCount (upsertRow db r) s sh it :=
          ih (fun x hx => h x (List.mem_cons_of_mem r hx)) (upsertRow db r)
      _ = findCount db s sh it := step

lemma findCount_upsertAll_of_mem (rs : List StockCountRow) (r : StockCountRow)
    (hmem : r ∈ rs) (hnd : (rs.map rowKey).Nodup) :
    ∀ db : List StockCountRow,
      findCount (upsertAll db rs) r.session_id r.shop_id r.item_id = some r := by
  induction rs with
  | nil => cases hmem
  | cons a rs ih =>
    intro db
    rw [List.map_cons, List.nodup_cons] at hnd
    rw [upsertAll, List.foldl_cons]
    rcases List.mem_cons.mp hmem with rfl | hmem2
    · have hrest : ∀ x ∈ rs, keyMatches x r.session_id r.shop_id r.item_id = false := by
        intro x hx
        by_contra hcon
        rw [Bool.not_eq_false] at hcon
        rcases keyMatches_eq_true.mp hcon with ⟨h1, h2, h3⟩
        exact hnd.1 (by
          rw [show rowKey r = rowKey x by simp [rowKey, h1, h2, h3]]
          exact List.mem_map_of_mem rowKey hx)
      show findCount (upsertAll (upsertRow db r) rs) r.session_id r.shop_id r.item_id = some r
      rw [findCount_upsertAll_of_forall_ne rs _ _ _ hrest (upsertRow db r)]
      exact findCount_upsertRow_self db r
    · exact ih hmem2 hnd.2 (upsertRow db a)

lemma saveCountsDB_eq_of_ok {sessionStatus role : String} {hsa : Bool}
    {sess shop : String} {userId : Option String} {counts : List CountInput}
    {db db2 : List StockCountRow}
    (h : saveCounts sessionStatus role hsa sess shop userId counts db = .ok db2) :
    saveCountsDB sessionStatus role hsa sess shop userId counts db = db2 := by
  unfold saveCountsDB
  rw [h]

lemma saveCountsDB_eq_of_error {sessionStatus role : String} {hsa : Bool}
    {sess shop : String} {userId : Option String} {counts : List CountInput}
    {db : List StockCountRow} {e : SaveError}
    (h : saveCounts sessionStatus role hsa sess shop userId counts db = .error e) :
    saveCountsDB sessionStatus role hsa sess shop userId counts db = db := by
  unfold saveCountsDB
  rw [h]

lemma saveCounts_ok_cases (sessionStatus role : String) (hsa : Bool)
    (sess shop : String) (userId : Option String) (counts : List CountInput)
    (db db2 : List StockCountRow)
    (h : saveCounts sessionStatus role hsa sess shop userId counts db = .ok db2) :
    ∃ uid, userId = some uid ∧
      db2 = upsertAll db ((counts.filter survives).map (toRow sess shop uid)) := by
  unfold saveCounts at h
  split at h
  · cases h
  · split at h
    · cases h
    · rename_i uid
      split at h
      · cases h
      · split at h
        · cases h
        · split at h
          · cases h
          · exact ⟨uid, rfl, (Except.ok.injEq _ _).mp h |>.symm⟩

/-- Any key whose row is not part of the surviving write set is untouched by a
`saveCounts` call, whether the call succeeds or is rejected. -/
lemma findCount_saveCountsDB_untouched (sessionStatus role : String) (hsa : Bool)
    (sess shop : String) (userId : Option String) (counts : List CountInput)
    (db : List StockCountRow) (s sh it : String)
    (h : ∀ c ∈ counts, survives c = true → ¬(sess = s ∧ shop = sh ∧ c.item_id = it)) :
    findCount (saveCountsDB sessionStatus role hsa sess shop userId counts db) s sh it
      = findCount db s sh it := by
  rcases hres : saveCounts sessionStatus role hsa sess shop userId counts db with e | db2
  · rw [saveCountsDB_eq_of_error hres]
  · rw [saveCountsDB_eq_of_ok hres]
    rcases saveCounts_ok_cases _ _ _ _ _ _ _ _ _ hres with ⟨uid, -, rfl⟩
    refine findCount_upsertAll_of_forall_ne _ _ _ _ ?_ db
    intro r hr
    rcases List.mem_map.mp hr with ⟨c, hc, rfl⟩
    rcases List.mem_filter.mp hc with ⟨hcmem, hcsurv⟩
    by_contra hcon
    rw [Bool.not_eq_false, keyMatches_eq_true] at hcon
    exact h c hcmem hcsurv ⟨hcon.1, hcon.2.1, hcon.2.2⟩

/-- Demonstration input for the save path: item A submitted at (3, 0) and
item B at (0, 5). -/
def demoCounts : List CountInput := [⟨"A", 3, 0⟩, ⟨"B", 0, 5⟩]

/-- Demonstration table state: item B already persisted at (2, 2). -/
def demoDb : List StockCountRow := [⟨"s1", "sh1", "B", 2, 2, "u0"⟩]

/-- C1: a save-counts call with a selected session and shop and a non-empty
surviving write set performs a single upsert keyed on
(session_id, shop_id, item_id): each surviving item's key afterwards holds
exactly the new row (full replacement, no merging), and keys outside the
write set are untouched. -/
theorem saveCounts_upsert_replaces
    (sessionStatus role : String) (hsa : Bool) (sess shop uid : String)
    (counts : List CountInput) (db : List StockCountRow)
    (hsess : sess ≠ "") (hshop : shop ≠ "")
    (hactive : sessionStatus = "active")
    (hrole : role = "employee" → hsa = true)
    (hne : counts.filter survives ≠ [])
    (hnd : (counts.map CountInput.item_id).Nodup) :
    saveCounts sessionStatus role hsa sess shop (some uid) counts db
      = .ok (upsertAll db ((counts.filter survives).map (toRow sess shop uid)))
    ∧ (∀ c ∈ counts, survives c = true →
        findCount (saveCountsDB sessionStatus role hsa sess shop (some uid) counts db)
          sess shop c.item_id = some (toRow sess shop uid c))
    ∧ (∀ s sh it : String,
        (∀ c ∈ counts, survives c = true → ¬(sess = s ∧ shop = sh ∧ c.item_id = it)) →
        findCount (saveCountsDB sessionStatus role hsa sess shop (some uid) counts db) s sh it
          = findCount db s sh it) := by
  subst hactive
  have hok : saveCounts "active" role hsa sess shop (some uid) counts db
      = .ok (upsertAll db ((counts.filter survives).map (toRow sess shop uid))) := by
    by_cases hre : role = "employee"
    · simp [saveCounts, hsess, hshop, hre, hrole hre, List.length_eq_zero, hne]
    · simp [saveCounts, hsess, hshop, hre, List.length_eq_zero, hne]
  refine ⟨hok, ?_, ?_⟩
  · intro c hc hcs
    rw [saveCountsDB_eq_of_ok hok]
    have hmem : toRow sess shop uid c ∈ (counts.filter survives).map (toRow sess shop uid) :=
      List.mem_map_of_mem _ (List.mem_filter.mpr ⟨hc, hcs⟩)
    have hndk : (((counts.filter survives).map (toRow sess shop uid)).map rowKey).Nodup := by
      rw [List.map_map]
      have hfun : (rowKey ∘ toRow sess shop uid)
          = (fun i => (sess, shop, i)) ∘ CountInput.item_id := rfl
      rw [hfun, ← List.map_map]
      refine List.Nodup.map ?_ ?_
      · intro a b hab
        simpa using hab
      · exact List.Nodup.sublist
          (List.Sublist.map CountInput.item_id (List.filter_sublist counts)) hnd
    exact findCount_upsertAll_of_mem _ _ hmem hndk db
  · intro s sh it h
    exact findCount_saveCountsDB_untouched _ _ _ _ _ _ _ _ _ _ _ h

/-- Witness for C1: saving A at (3,0) and B at (0,5) over a table where B was
(2,2) leaves A present at (3,0) and B fully replaced at (0,5). -/
theorem saveCounts_upsert_replaces_witness :
    (("s1" : String) ≠ "" ∧ ("sh1" : String) ≠ "" ∧ demoCounts.filter survives ≠ []
      ∧ (demoCounts.map CountInput.item_id).Nodup)
    ∧ findCount (saveCountsDB "active" "manager" true "s1" "sh1" (some "u1") demoCounts demoDb)
        "s1" "sh1" "A" = some (toRow "s1" "sh1" "u1" ⟨"A", 3, 0⟩)
    ∧ findCount (saveCountsDB "active" "manager" true "s1" "sh1" (some "u1") demoCounts demoDb)
        "s1" "sh1" "B" = some (toRow "s1" "sh1" "u1" ⟨"B", 0, 5⟩)
    ∧ toRow "s1" "sh1" "u1" ⟨"A", 3, 0⟩
        = ⟨"s1", "sh1", "A", 3, 0, "u1"⟩
    ∧ toRow "s1" "sh1" "u1" ⟨"B", 0, 5⟩
        = ⟨"s1", "sh1", "B", 0, 5, "u1"⟩ := by
  have h := saveCounts_upsert_replaces "active" "manager" true "s1" "sh1" "u1"
    demoCounts demoDb (by decide) (by decide) rfl (fun _ => rfl) (by decide) (by decide)
  exact ⟨⟨by decide, by decide, by decide, by decide⟩,
    h.2.1 ⟨"A", 3, 0⟩ (by decide) (by decide),
    h.2.1 ⟨"B", 0, 5⟩ (by decide) (by decide),
    by decide, by decide⟩

/-- C3: a save-counts call against a session whose status read back at write
time is not `active` is rejected with the state-conflict error and leaves the
`stock_counts` table unchanged. -/
theorem saveCounts_rejects_inactive (sessionStatus role : String) (hsa : Bool)
    (sess shop uid : String) (counts : List CountInput) (db : List StockCountRow)
    (hsess : sess ≠ "") (hshop : shop ≠ "") (hstatus : sessionStatus ≠ "active") :
    saveCounts sessionStatus role hsa sess shop (some uid) counts db
      = .error .sessionNotActive
    ∧ saveCountsDB sessionStatus role hsa sess shop (some uid) counts db = db := by
  have herr : saveCounts sessionStatus role hsa sess shop (some uid) counts db
      = .error .sessionNotActive := by
    simp [saveCounts, hsess, hshop, hstatus]
  exact ⟨herr, saveCountsDB_eq_of_error herr⟩

/-- Witness for C3: a save against a `completed` session is rejected and the
table is left as it was. -/
theorem saveCounts_rejects_inactive_witness :
    (("s1" : String) ≠ "" ∧ ("sh1" : String) ≠ "" ∧ ("completed" : String) ≠ "active")
    ∧ saveCounts "completed" "manager" true "s1" "sh1" (some "u1") demoCounts demoDb
        = .error .sessionNotActive
    ∧ saveCountsDB "completed" "manager" true "s1" "sh1" (some "u1") demoCounts demoDb
        = demoDb := by
  have h := saveCounts_rejects_inactive "completed" "manager" true "s1" "sh1" "u1"
    demoCounts demoDb (by decide) (by decide) (by decide)
  exact ⟨⟨by decide, by decide, by decide⟩, h.1, h.2⟩

/-- C4: every persisted quantity is the submitted value clamped to the integer
range [0, 999999] (non-integers floored); in particular −5 clamps to 0,
10000000 clamps to 999999, and 7/2 floors to 3. -/
theorem saveCounts_clamps (sess shop uid : String) (counts : List CountInput) :
    (∀ r ∈ (counts.filter survives).map (toRow sess shop uid),
        ∃ c ∈ counts, r.boxes = clampQty c.boxes ∧ r.singles = clampQty c.singles)
    ∧ (∀ v : ℚ, 0 ≤ clampQty v ∧ clampQty v ≤ 999999)
    ∧ clampQty (-5) = 0 ∧ clampQty 10000000 = 999999 ∧ clampQty (7 / 2) = 3 := by
  refine ⟨?_, ?_, by decide, by decide, by norm_num [clampQty]⟩
  · intro r hr
    rcases List.mem_map.mp hr with ⟨c, hc, rfl⟩
    exact ⟨c, (List.mem_filter.mp hc).1, rfl, rfl⟩
  · intro v
    exact ⟨le_max_left 0 _, max_le (by norm_num) (min_le_left _ _)⟩

/-- Demonstration input for clamping: boxes −5 (with singles 5 so the entry
survives) and boxes 10000000. -/
def demoClampCounts : List CountInput := [⟨"A", -5, 5⟩, ⟨"X", 10000000, 0⟩]

/-- Witness for C4: the validated rows built from submitted boxes of −5 and
10000000 persist boxes of 0 and 999999 respectively. -/
theorem saveCounts_clamps_witness :
    toRow "s1" "sh1" "u1" ⟨"A", -5, 5⟩
      ∈ (demoClampCounts.filter survives).map (toRow "s1" "sh1" "u1")
    ∧ (∃ c ∈ demoClampCounts,
        (toRow "s1" "sh1" "u1" ⟨"A", -5, 5⟩).boxes = clampQty c.boxes
        ∧ (toRow "s1" "sh1" "u1" ⟨"A", -5, 5⟩).singles = clampQty c.singles)
    ∧ (toRow "s1" "sh1" "u1" ⟨"A", -5, 5⟩).boxes = 0
    ∧ (toRow "s1" "sh1" "u1" ⟨"X", 10000000, 0⟩).boxes = 999999
    ∧ clampQty (-5) = 0 ∧ clampQty 10000000 = 999999 := by
  refine ⟨by decide, (saveCounts_clamps "s1" "sh1" "u1" demoClampCounts).1 _ (by decide),
    by decide, by decide, by decide, by decide⟩

/-- C5: an item whose clamped boxes and singles are both zero does not survive
the filter, so its key is a net no-op for the save; and a save whose surviving
write set is empty is rejected with the nothing-to-save error before any
write. -/
theorem saveCounts_zero_entries_noop :
    (∀ c : CountInput, clampQty c.boxes = 0 → clampQty c.singles = 0 →
        survives c = false)
    ∧ (∀ (counts : List CountInput) (c : CountInput), survives c = false →
        c ∉ counts.filter survives)
    ∧ (∀ (sessionStatus role : String) (hsa : Bool) (sess shop : String)
        (userId : Option String) (counts : List CountInput) (db : List StockCountRow),
        ∀ c ∈ counts, survives c = false →
        (∀ c2 ∈ counts, survives c2 = true → c2.item_id ≠ c.item_id) →
        findCount (saveCountsDB sessionStatus role hsa sess shop userId counts db)
          sess shop c.item_id = findCount db sess shop c.item_id)
    ∧ (∀ (role : String) (hsa : Bool) (sess shop uid : String)
        (counts : List CountInput) (db : List StockCountRow),
        sess ≠ "" → shop ≠ "" → (role = "employee" → hsa = true) →
        counts.filter survives = [] →
        saveCounts "active" role hsa sess shop (some uid) counts db
          = .error .nothingToSave
        ∧ saveCountsDB "active" role hsa sess shop (some uid) counts db = db) := by
  refine ⟨?_, ?_, ?_, ?_⟩
  · intro c h1 h2
    simp [survives, h1, h2]
  · intro counts c hc hmem
    rw [(List.mem_filter.mp hmem).2] at hc
    cases hc
  · intro sessionStatus role hsa sess shop userId counts db c hc hcs hother
    refine findCount_saveCountsDB_untouched _ _ _ _ _ _ _ _ _ _ _ ?_
    rintro c2 hc2 hc2s ⟨-, -, hit⟩
    exact hother c2 hc2 hc2s hit
  · intro role hsa sess shop uid counts db hsess hshop hrole hempty
    have herr : saveCounts "active" role hsa sess shop (some uid) counts db
        = .error .nothingToSave := by
      by_cases hre : role = "employee"
      · simp [saveCounts, hsess, hshop, hre, hrole hre, hempty]
      · simp [saveCounts, hsess, hshop, hre, hempty]
    exact ⟨herr, saveCountsDB_eq_of_error herr⟩

/-- Demonstration input with one zero-valued entry alongside a surviving one. -/
def demoZeroCounts : List CountInput := [⟨"Z", 0, 0⟩, ⟨"B", 0, 5⟩]

/-- Demonstration input where every entry is zero after clamping. -/
def demoAllZero : List CountInput := [⟨"Z", 0, 0⟩]

/-- Witness for C5: the zero-valued entry Z is dropped and its key untouched;
a save consisting only of zero entries is rejected with nothing-to-save. -/
theorem saveCounts_zero_entries_noop_witness :
    survives ⟨"Z", 0, 0⟩ = false
    ∧ (⟨"Z", 0, 0⟩ : CountInput) ∉ demoZeroCounts.filter survives
    ∧ findCount (saveCountsDB "active" "manager" true "s1" "sh1" (some "u1")
        demoZeroCounts demoDb) "s1" "sh1" "Z" = findCount demoDb "s1" "sh1" "Z"
    ∧ saveCounts "active" "manager" true "s1" "sh1" (some "u1") demoAllZero demoDb
        = .error .nothingToSave
    ∧ saveCountsDB "active" "manager" true "s1" "sh1" (some "u1") demoAllZero demoDb
        = demoDb := by
  have h := saveCounts_zero_entries_noop
  have h4 := h.2.2.2 "manager" true "s1" "sh1" "u1" demoAllZero demoDb
    (by decide) (by decide) (fun _ => rfl) (by decide)
  exact ⟨h.1 ⟨"Z", 0, 0⟩ (by decide) (by decide),
    h.2.1 demoZeroCounts ⟨"Z", 0, 0⟩ (by decide),
    h.2.2.1 "active" "manager" true "s1" "sh1" (some "u1") demoZeroCounts demoDb
      ⟨"Z", 0, 0⟩ (by decide) (by decide) (by decide),
    h4.1, h4.2⟩

/-- Whitespace trimming on a character list, stripping leading and trailing
whitespace as JavaScript's `String.prototype.trim` does. -/
def trimChars (l : List Char) : List Char :=
  ((l.dropWhile Char.isWhitespace).reverse.dropWhile Char.isWhitespace).reverse

/-- JavaScript's `trim()`. -/
def strTrim (s : String) : String := ⟨trimChars s.data⟩

/-- JavaScript's `toLowerCase()`. -/
def strToLower (s : String) : String := ⟨s.data.map Char.toLower⟩

/-- A `stock_count_sessions` row.  The completion timestamp is an abstract
tick (`Nat`), absent until completion. -/
structure Session where
  id : String
  name : String
  status : String
  created_by : String
  completed_at : Option Nat
deriving DecidableEq, Repr

/-- The `createSession` insert: a blank (trimmed) name is rejected; otherwise
the new row has status `active`, the creating user, and no completion
timestamp. -/
def createSession (id name uid : String) : Option Session :=
  if strTrim name = "" then none
  else some ⟨id, name, "active", uid, none⟩

/-- The conditional completion update of `completeSession`
(`.eq('id', sessionId).eq('status', 'active')`): a compare-and-swap that sets
`status` and `completed_at` in the same write when the row is still active,
and matches zero rows otherwise.  The second component reports whether the
update matched. -/
def casComplete (s : Session) (now : Nat) : Session × Bool :=
  if s.status = "active" then
    ({ s with status := "completed", completed_at := some now }, true)
  else (s, false)

/-- What one `completeSession` caller reports. -/
inductive CompleteOutcome where
  | alreadyCompleted
  | success
deriving DecidableEq, Repr

/-- One `completeSession` run.  `precheckStatus` is the status returned by the
initial read; `s` is the session row at the moment the conditional update
executes.  A non-active pre-check reports the already-completed message
without writing.  The client inspects only the update's error field, and an
update matching zero rows is not an error, so every caller that passes the
pre-check reports success. -/
def completeSessionStep (precheckStatus : String) (s : Session) (now : Nat) :
    Session × CompleteOutcome :=
  if precheckStatus ≠ "active" then (s, .alreadyCompleted)
  else ((casComplete s now).1, .success)

/-- Interleaving of two `completeSession` callers in which both pre-check
reads happen before either conditional update, so both reads observe `s0`.
Returns the final session row and the two callers' outcomes. -/
def raceBothPrecheckFirst (s0 : Session) (t1 t2 : Nat) :
    Session × CompleteOutcome × CompleteOutcome :=
  let r1 := completeSessionStep s0.status s0 t1
  let r2 := completeSessionStep s0.status r1.1 t2
  (r2.1, r1.2, r2.2)

/-- Demonstration session in the active state. -/
def demoSession : Session := ⟨"s1", "January", "active", "m1", none⟩

/-- Counterexample to C2 as stated: when both callers' pre-check reads observe
the still-active session, the second caller's conditional update matches zero
rows and yet that caller also reports success, so it is not the case that
exactly one of the two callers observes success, nor that the zero-row caller
observes the already-completed condition. -/
theorem completeSession_both_report_success :
    (raceBothPrecheckFirst demoSession 1 2).2.1 = CompleteOutcome.success
    ∧ (raceBothPrecheckFirst demoSession 1 2).2.2 = CompleteOutcome.success
    ∧ (casComplete (completeSessionStep demoSession.status demoSession 1).1 2).2 = false := by
  decide

/-- C2 (amended): the completion write is a compare-and-swap on
`status = active`, so in the race the session ends `completed` exactly once —
`completed_at` comes from the single winning write and the loser's update
matches zero rows and changes nothing; a caller whose pre-check read observes
a non-active status reports already-completed without writing; but a caller
that passed the pre-check reports success even when its conditional update
matched zero rows. -/
theorem completeSession_cas_exactly_once (s0 : Session) (t1 t2 : Nat)
    (h : s0.status = "active") :
    (raceBothPrecheckFirst s0 t1 t2).1.status = "completed"
    ∧ (raceBothPrecheckFirst s0 t1 t2).1.completed_at = some t1
    ∧ (casComplete (raceBothPrecheckFirst s0 t1 t2).1 t2).2 = false
    ∧ (casComplete (raceBothPrecheckFirst s0 t1 t2).1 t2).1
        = (raceBothPrecheckFirst s0 t1 t2).1
    ∧ (raceBothPrecheckFirst s0 t1 t2).2.1 = CompleteOutcome.success
    ∧ (raceBothPrecheckFirst s0 t1 t2).2.2 = CompleteOutcome.success
    ∧ (∀ (s : Session) (now : Nat), s.status ≠ "active" →
        completeSessionStep s.status s now = (s, CompleteOutcome.alreadyCompleted)) := by
  refine ⟨?_, ?_, ?_, ?_, ?_, ?_, ?_⟩
  all_goals first
    | (intro s now hs; simp [completeSessionStep, hs])
    | simp [raceBothPrecheckFirst, completeSessionStep, casComplete, h]

/-- Witness for C2 (amended): the concrete race on the demonstration session
completes it once, at the winner's timestamp, with both callers reporting
success. -/
theorem completeSession_cas_exactly_once_witness :
    demoSession.status = "active"
    ∧ (raceBothPrecheckFirst demoSession 1 2).1.status = "completed"
    ∧ (raceBothPrecheckFirst demoSession 1 2).1.completed_at = some 1
    ∧ (casComplete (raceBothPrecheckFirst demoSession 1 2).1 2).2 = false := by
  have h := completeSession_cas_exactly_once demoSession 1 2 rfl
  exact ⟨rfl, h.1, h.2.1, h.2.2.1⟩

/-- Invariant of the session ledger: the completion timestamp is present
exactly when the status is `completed`. -/
def sessionInvariant (s : Session) : Prop :=
  s.completed_at.isSome ↔ s.status = "completed"

instance (s : Session) : Decidable (sessionInvariant s) := by
  unfold sessionInvariant
  infer_instance

/-- C6: session creation produces an active session with no completion
timestamp, the completion write sets the status and the timestamp together,
and both operations preserve the invariant that `completed_at` is set iff
`status = completed`. -/
theorem session_invariant_lifecycle :
    (∀ id name uid s, createSession id name uid = some s →
        s.status = "active" ∧ s.completed_at = none ∧ sessionInvariant s)
    ∧ (∀ (s : Session) (t : Nat), s.status = "active" →
        (casComplete s t).1.status = "completed"
        ∧ (casComplete s t).1.completed_at = some t)
    ∧ (∀ (s : Session) (t : Nat), sessionInvariant s →
        sessionInvariant (casComplete s t).1) := by
  refine ⟨?_, ?_, ?_⟩
  · intro id name uid s hs
    unfold createSession at hs
    split at hs
    · cases hs
    · cases hs
      refine ⟨rfl, rfl, ?_⟩
      simp [sessionInvariant]
  · intro s t hs
    simp [casComplete, hs]
  · intro s t hinv
    unfold casComplete
    split
    · simp [sessionInvariant]
    · exact hinv

/-- Witness for C6: a concrete creation and a concrete completion, each
satisfying the invariant. -/
theorem session_invariant_lifecycle_witness :
    createSession "s2" "February" "m1" = some ⟨"s2", "February", "active", "m1", none⟩
    ∧ (⟨"s2", "February", "active", "m1", none⟩ : Session).status = "active"
    ∧ (⟨"s2", "February", "active", "m1", none⟩ : Session).completed_at = none
    ∧ sessionInvariant (⟨"s2", "February", "active", "m1", none⟩ : Session)
    ∧ (casComplete demoSession 5).1.status = "completed"
    ∧ (casComplete demoSession 5).1.completed_at = some 5
    ∧ sessionInvariant (casComplete demoSession 5).1 := by
  have h := session_invariant_lifecycle
  have h1 := h.1 "s2" "February" "m1" ⟨"s2", "February", "active", "m1", none⟩ (by decide)
  have h2 := h.2.1 demoSession 5 rfl
  have h3 := h.2.2 (casComplete demoSession 5).1 5
  exact ⟨by decide, h1.1, h1.2.1, h1.2.2, h2.1, h2.2,
    h.2.2 demoSession 5 (by decide)⟩

/-- The three delete steps of `deleteSession`, in source order. -/
inductive DeleteStep where
  | counts
  | assignments
  | sessionRow
deriving DecidableEq, Repr

/-- The ledger tables touched by `deleteSession`.  An assignment is a
(session_id, user_id) pair. -/
structure LedgerDB where
  stockCounts : List StockCountRow
  assignments : List (String × String)
  sessions : List Session
deriving DecidableEq, Repr

/-- The `deleteSession` cascade: delete the session's stock counts, then its
user assignments, then the session row, in that order.  Each flag says
whether the corresponding table delete fails; a failing delete removes
nothing.  A failure of either of the first two steps is logged and execution
continues; only the final step's failure makes the operation report an error.
The trace lists the steps executed, in order. -/
def deleteSession (db : LedgerDB) (sid : String)
    (countsFail assignFail sessionFail : Bool) :
    LedgerDB × Bool × List DeleteStep :=
  let db1 := if countsFail then db
    else { db with stockCounts := db.stockCounts.filter (fun r => r.session_id ≠ sid) }
  let db2 := if assignFail then db1
    else { db1 with assignments := db1.assignments.filter (fun a => a.1 ≠ sid) }
  let db3 := if sessionFail then db2
    else { db2 with sessions := db2.sessions.filter (fun s => s.id ≠ sid) }
  (db3, !sessionFail, [.counts, .assignments, .sessionRow])

/-- C9: `deleteSession` always executes its three deletes in order — counts,
assignments, session row; a failure of either of the first two steps leaves
that table unchanged but does not stop the cascade, and the operation's
reported success depends only on the final session-row delete. -/
theorem deleteSession_cascade (db : LedgerDB) (sid : String) (f1 f2 f3 : Bool) :
    (deleteSession db sid f1 f2 f3).2.2
      = [DeleteStep.counts, DeleteStep.assignments, DeleteStep.sessionRow]
    ∧ (deleteSession db sid f1 f2 f3).2.1 = !f3
    ∧ (deleteSession db sid f1 f2 f3).1.stockCounts
        = (if f1 then db.stockCounts
           else db.stockCounts.filter (fun r => r.session_id ≠ sid))
    ∧ (deleteSession db sid f1 f2 f3).1.assignments
        = (if f2 then db.assignments else db.assignments.filter (fun a => a.1 ≠ sid))
    ∧ (deleteSession db sid f1 f2 f3).1.sessions
        = (if f3 then db.sessions else db.sessions.filter (fun s => s.id ≠ sid)) := by
  cases f1 <;> cases f2 <;> cases f3 <;> simp [deleteSession]

/-- A `categories` row. -/
structure Category where
  id : String
  name : String
deriving DecidableEq, Repr

/-- An `items` row; `category_id` is nullable. -/
structure Item where
  id : String
  name : String
  pack_size : String
  category_id : Option String
deriving DecidableEq, Repr

/-- A `shop_items` assignment row. -/
structure ShopItem where
  shop_id : String
  item_id : String
deriving DecidableEq, Repr

/-- A spreadsheet cell: the export emits item names and pack sizes as text
and quantities as numbers. -/
inductive Cell where
  | str (s : String)
  | num (n : ℤ)
deriving DecidableEq, Repr

/-- The item identifiers assigned to a shop (the `shopItemsMap` entry built
from `shop_items`). -/
def assignedItemIds (shopId : String) (shopItems : List ShopItem) : List String :=
  (shopItems.filter (fun si => si.shop_id = shopId)).map ShopItem.item_id

/-- `shopItemsFiltered` in `downloadExcel`: the fetched items restricted to
those assigned to the shop. -/
def shopFilteredItems (shopId : String) (shopItems : List ShopItem)
    (items : List Item) : List Item :=
  items.filter (fun it => (assignedItemIds shopId shopItems).any (fun i => i = it.id))

/-- The `countsMap` lookup in `downloadExcel`: boxes and singles of the stored
count for (shop, item), the last fetched row winning as with `Map.set`, or
(0, 0) when absent. -/
def lookupCount (counts : List StockCountRow) (shopId itemId : String) : ℤ × ℤ :=
  match (counts.filter (fun c => c.shop_id = shopId ∧ c.item_id = itemId)).getLast? with
  | some c => (c.boxes, c.singles)
  | none => (0, 0)

/-- One emitted item data row: name, pack size, boxes, singles. -/
def itemRow (counts : List StockCountRow) (shopId : String) (it : Item) : List Cell :=
  [Cell.str it.name, Cell.str it.pack_size,
    Cell.num (lookupCount counts shopId it.id).1,
    Cell.num (lookupCount counts shopId it.id).2]

/-- The sheet rows emitted for one category: skipped when the category has no
assigned items, otherwise a category header, a column header, one data row
per item, and a trailing blank row. -/
def categoryRows (shopId : String) (counts : List StockCountRow) (cat : Category)
    (catItems : List Item) : List (List Cell) :=
  if catItems.length = 0 then []
  else
    [Cell.str cat.name]
      :: [Cell.str "Item Name", Cell.str "Pack Size", Cell.str "Boxes", Cell.str "Singles"]
      :: (catItems.map (itemRow counts shopId) ++ [[]])

/-- The sheet built for one shop in `downloadExcel`: the per-category blocks,
in fetched category order, over the shop's assigned items. -/
def sheetForShop (shopId : String) (cats : List Category) (items : List Item)
    (shopItems : List ShopItem) (counts : List StockCountRow) : List (List Cell) :=
  (cats.map (fun cat => categoryRows shopId counts cat
    ((shopFilteredItems shopId shopItems items).filter
      (fun it => it.category_id = some cat.id)))).flatten

/-- Recognizes an item data row within a sheet (four cells ending in two
numbers); header, category and blank rows do not match. -/
def isItemRow (row : List Cell) : Bool :=
  match row with
  | [Cell.str _, Cell.str _, Cell.num _, Cell.num _] => true
  | _ => false

/-- The number of item data rows on a shop's sheet. -/
def itemRowCount (shopId : String) (cats : List Category) (items : List Item)
    (shopItems : List ShopItem) (counts : List StockCountRow) : Nat :=
  ((sheetForShop shopId cats items shopItems counts).filter isItemRow).length

/-- `fetchItemsForShop` on the counting page: when the shop has at least one
`shop_items` row the item list is restricted to the assigned identifiers,
otherwise all items are shown. -/
def fetchItemsForShop (shopId : String) (shopItems : List ShopItem)
    (items : List Item) : List Item :=
  if 0 < (assignedItemIds shopId shopItems).length then
    items.filter (fun it => (assignedItemIds shopId shopItems).any (fun i => i = it.id))
  else items

lemma countP_itemRow_categoryRows (shopId : String) (counts : List StockCountRow)
    (cat : Category) (catItems : List Item) :
    (categoryRows shopId counts cat catItems).countP isItemRow = catItems.length := by
  unfold categoryRows
  by_cases h : catItems.length = 0
  · rw [if_pos h, h]
    rfl
  · rw [if_neg h]
    rw [List.countP_cons, List.countP_cons, List.countP_append]
    have hhead : isItemRow [Cell.str cat.name] = false := rfl
    have hcols : isItemRow
        [Cell.str "Item Name", Cell.str "Pack Size", Cell.str "Boxes", Cell.str "Singles"]
        = false := rfl
    have hblank : ([[]] : List (List Cell)).countP isItemRow = 0 := rfl
    have hdata : (catItems.map (itemRow counts shopId)).countP isItemRow
        = catItems.length := by
      rw [List.countP_map]
      have hall : ∀ it ∈ catItems, (isItemRow ∘ itemRow counts shopId) it = true := by
        intro it _
        rfl
      exact List.countP_eq_length.mpr hall
    rw [hhead, hcols, hblank, hdata]
    simp

lemma itemRowCount_eq_sum (shopId : String) (cats : List Category)
    (items : List Item) (shopItems : List ShopItem) (counts : List StockCountRow) :
    itemRowCount shopId cats items shopItems counts
      = (cats.map (fun cat => ((shopFilteredItems shopId shopItems items).filter
          (fun it => it.category_id = some cat.id)).length)).sum := by
  unfold itemRowCount sheetForShop
  rw [← List.countP_eq_length_filter, List.countP_flatten, List.map_map]
  congr 1
  refine List.map_congr_left ?_
  intro cat _
  exact countP_itemRow_categoryRows shopId counts cat _

lemma length_filter_or_disjoint {α : Type} (p q : α → Bool) :
    ∀ l : List α, (∀ a ∈ l, ¬(p a = true ∧ q a = true)) →
      (l.filter (fun a => p a || q a)).length
        = (l.filter p).length + (l.filter q).length := by
  intro l
  induction l with
  | nil => simp
  | cons a l ih =>
    intro h
    have ha := h a (List.mem_cons_self a l)
    have ih2 := ih (fun x hx => h x (List.mem_cons_of_mem a hx))
    by_cases hp : p a = true
    · have hq : q a = false := by
        rcases Bool.eq_false_or_eq_true (q a) with hq | hq
        · exact absurd ⟨hp, hq⟩ ha
        · exact hq
      simp only [List.filter_cons, hp, hq, Bool.true_or, if_true, Bool.false_eq_true,
        if_false, List.length_cons, ih2]
      omega
    · rw [Bool.not_eq_true] at hp
      by_cases hq : q a = true
      · simp only [List.filter_cons, hp, hq, Bool.false_or, if_true, Bool.false_eq_true,
          if_false, List.length_cons, ih2]
        omega
      · rw [Bool.not_eq_true] at hq
        simp only [List.filter_cons, hp, hq, Bool.false_or, Bool.false_eq_true,
          if_false, ih2]

lemma sum_filter_by_category (cats : List Category) :
    ∀ its : List Item, (cats.map Category.id).Nodup →
      (cats.map (fun c => (its.filter (fun it => it.category_id = some c.id)).length)).sum
        = (its.filter (fun it => cats.any (fun c => it.category_id = some c.id))).length := by
  induction cats with
  | nil =>
    intro its _
    simp
  | cons c cs ih =>
    intro its hnd
    rw [List.map_cons, List.nodup_cons] at hnd
    rw [List.map_cons, List.sum_cons, ih its hnd.2]
    rw [← length_filter_or_disjoint (fun it => decide (it.category_id = some c.id))
      (fun it => cs.any (fun c2 => it.category_id = some c2.id)) its ?_]
    · congr 1
    · intro it _
      rintro ⟨h1, h2⟩
      rw [decide_eq_true_eq] at h1
      rw [List.any_eq_true] at h2
      rcases h2 with ⟨c2, hc2, hc2eq⟩
      rw [decide_eq_true_eq] at hc2eq
      refine hnd.1 ?_
      have : c.id = c2.id := by
        have := h1.symm.trans hc2eq
        exact Option.some.inj this
      rw [this]
      exact List.mem_map_of_mem Category.id hc2

lemma perm_any {α : Type} {l1 l2 : List α} (h : l1.Perm l2) (p : α → Bool) :
    l1.any p = l2.any p := by
  rcases hb : l2.any p with _ | _
  · rw [List.any_eq_false] at hb ⊢
    intro x hx
    exact hb x (h.mem_iff.mp hx)
  · rw [List.any_eq_true] at hb ⊢
    rcases hb with ⟨x, hx, hpx⟩
    exact ⟨x, h.mem_iff.mpr hx, hpx⟩

lemma filter_eq_of_perm_of_le_one {α : Type} (p : α → Bool) {l1 l2 : List α}
    (h : l1.Perm l2) (hle : l1.countP p ≤ 1) : l1.filter p = l2.filter p := by
  have hp : (l1.filter p).Perm (l2.filter p) := h.filter p
  have hlen : (l1.filter p).length ≤ 1 := by
    rw [← List.countP_eq_length_filter]
    exact hle
  cases hfl : l1.filter p with
  | nil =>
    rw [hfl] at hp
    exact (List.Perm.eq_nil hp.symm).symm
  | cons a t =>
    have ht : t = [] := by
      rw [hfl] at hlen
      simp only [List.length_cons] at hlen
      exact List.length_eq_zero.mp (by omega)
    subst ht
    rw [hfl] at hp
    exact ((List.perm_singleton).mp hp.symm).symm

lemma countP_countKey_le_one (shopId itemId : String) :
    ∀ l : List StockCountRow, (l.map (fun c => (c.shop_id, c.item_id))).Nodup →
      l.countP (fun c => decide (c.shop_id = shopId ∧ c.item_id = itemId)) ≤ 1 := by
  intro l
  induction l with
  | nil =>
    intro _
    simp
  | cons a l ih =>
    intro h
    rw [List.map_cons, List.nodup_cons] at h
    rw [List.countP_cons]
    by_cases hk : a.shop_id = shopId ∧ a.item_id = itemId
    · have hzero : l.countP (fun c => decide (c.shop_id = shopId ∧ c.item_id = itemId)) = 0 := by
        rw [List.countP_eq_zero]
        intro x hx
        rw [decide_eq_true_eq]
        rintro ⟨hx1, hx2⟩
        refine h.1 ?_
        rw [show (a.shop_id, a.item_id) = (x.shop_id, x.item_id) by
          rw [hk.1, hk.2, hx1, hx2]]
        exact List.mem_map_of_mem _ hx
      rw [hzero]
      by_cases h2 : a.shop_id = shopId ∧ a.item_id = itemId <;> simp [h2]
    · have hfalse : decide (a.shop_id = shopId ∧ a.item_id = itemId) = false := by
        simpa using hk
      rw [hfalse]
      simpa using ih h.2

lemma lookupCount_perm {counts1 counts2 : List StockCountRow}
    (h : counts1.Perm counts2)
    (hnd : (counts1.map (fun c => (c.shop_id, c.item_id))).Nodup)
    (shopId itemId : String) :
    lookupCount counts1 shopId itemId = lookupCount counts2 shopId itemId := by
  unfold lookupCount
  rw [filter_eq_of_perm_of_le_one _ h (countP_countKey_le_one shopId itemId counts1 hnd)]

lemma categoryRows_congr {counts1 counts2 : List StockCountRow} (shopId : String)
    (h : ∀ itId, lookupCount counts1 shopId itId = lookupCount counts2 shopId itId)
    (cat : Category) (catItems : List Item) :
    categoryRows shopId counts1 cat catItems = categoryRows shopId counts2 cat catItems := by
  unfold categoryRows itemRow
  simp only [h]

/-- Strict ordering of names, standing for the database's `order('name')`
with pairwise-distinct names. -/
def nameLt (a b : String) : Prop := a.data < b.data

instance (a b : String) : Decidable (nameLt a b) := by
  unfold nameLt
  infer_instance

/-- Non-strict ordering of names: what the database's `order('name')`
guarantees, leaving the relative order of equal names free. -/
def nameLe (a b : String) : Prop := a.data ≤ b.data

instance (a b : String) : Decidable (nameLe a b) := by
  unfold nameLe
  infer_instance

/-- An item with a null category, as the bulk CSV import creates when a row
carries no category, assigned to shop sh1. -/
def demoNullItems : List Item := [⟨"N", "Napkins", "50", none⟩]

/-- Assignment of the uncategorized item to shop sh1. -/
def demoNullShopItems : List ShopItem := [⟨"sh1", "N"⟩]

/-- Two categories sharing the name Dup, as the import's stale-closure bug
can create; one fetch order. -/
def demoDupCats1 : List Category := [⟨"c1", "Dup"⟩, ⟨"c2", "Dup"⟩]

/-- The same two duplicate-named category rows in the other fetch order;
both orders satisfy the query's ordering by name. -/
def demoDupCats2 : List Category := [⟨"c2", "Dup"⟩, ⟨"c1", "Dup"⟩]

/-- Items split across the two duplicate-named categories. -/
def demoDupItems : List Item :=
  [⟨"A", "Apple", "6", some "c1"⟩, ⟨"B", "Beer", "24", some "c2"⟩]

/-- Both items assigned to shop sh1. -/
def demoDupShopItems : List ShopItem := [⟨"sh1", "A"⟩, ⟨"sh1", "B"⟩]

/-- Counterexample to C7 as stated.  First: shop sh1 has one assigned item,
but that item's category is null (exactly what the bulk import inserts for a
row without a category), so the export emits zero item rows for the shop —
the row count falls short of the assigned count.  Second: with two
categories sharing one name, two fetches of the same category rows that both
satisfy the query's ordering by name produce different sheets, so the
emitted rows do depend on fetch order. -/
theorem downloadExcel_claim_fails :
    ((shopFilteredItems "sh1" demoNullShopItems demoNullItems).length = 1
      ∧ itemRowCount "sh1" demoDupCats1 demoNullItems demoNullShopItems
          ([] : List StockCountRow) = 0)
    ∧ (demoDupCats1.Perm demoDupCats2
      ∧ List.Sorted (fun a b : Category => nameLe a.name b.name) demoDupCats1
      ∧ List.Sorted (fun a b : Category => nameLe a.name b.name) demoDupCats2
      ∧ sheetForShop "sh1" demoDupCats1 demoDupItems demoDupShopItems
            ([] : List StockCountRow)
          ≠ sheetForShop "sh1" demoDupCats2 demoDupItems demoDupShopItems
            ([] : List StockCountRow)) := by
  decide

/-- C7 (amended): provided every item assigned to the shop carries the
identifier of some fetched category, category identifiers are distinct, and
the name orderings of categories and items are strict (pairwise-distinct
names, so the queries' ordering by name pins the fetch order), the number of
item data rows on a shop's sheet equals the number of items assigned to that
shop via `shop_items` (partitioned by category), and the emitted sheet is
identical for any two fetches returning the same underlying rows — shop-item
and count rows in arbitrary order.  Assigned items whose category is null or
not among the fetched categories are dropped from the sheet, and
duplicate-named categories leave the block order dependent on fetch tie
order, as the counterexample shows. -/
theorem downloadExcel_sheet_deterministic
    (shopId : String) (cats1 cats2 : List Category) (items1 items2 : List Item)
    (shopItems1 shopItems2 : List ShopItem) (counts1 counts2 : List StockCountRow)
    (hcnd : (cats1.map Category.id).Nodup)
    (hall : ∀ it ∈ shopFilteredItems shopId shopItems1 items1,
        ∃ c ∈ cats1, it.category_id = some c.id)
    (hcperm : cats1.Perm cats2)
    (hcsort1 : List.Sorted (fun a b : Category => nameLt a.name b.name) cats1)
    (hcsort2 : List.Sorted (fun a b : Category => nameLt a.name b.name) cats2)
    (hiperm : items1.Perm items2)
    (hisort1 : List.Sorted (fun a b : Item => nameLt a.name b.name) items1)
    (hisort2 : List.Sorted (fun a b : Item => nameLt a.name b.name) items2)
    (hsperm : shopItems1.Perm shopItems2)
    (hkperm : counts1.Perm counts2)
    (hknd : (counts1.map (fun c => (c.shop_id, c.item_id))).Nodup) :
    itemRowCount shopId cats1 items1 shopItems1 counts1
      = (shopFilteredItems shopId shopItems1 items1).length
    ∧ sheetForShop shopId cats1 items1 shopItems1 counts1
      = sheetForShop shopId cats2 items2 shopItems2 counts2 := by
  constructor
  · rw [itemRowCount_eq_sum, sum_filter_by_category cats1 _ hcnd]
    congr 1
    refine List.filter_eq_self.mpr ?_
    intro it hit
    rcases hall it hit with ⟨c, hc, hceq⟩
    rw [List.any_eq_true]
    exact ⟨c, hc, by rw [decide_eq_true_eq]; exact hceq⟩
  · have hcats : cats1 = cats2 := by
      haveI : IsAntisymm Category (fun a b => nameLt a.name b.name) :=
        ⟨fun a b h1 h2 => absurd h2 (lt_asymm h1)⟩
      exact List.eq_of_perm_of_sorted hcperm hcsort1 hcsort2
    have hitems : items1 = items2 := by
      haveI : IsAntisymm Item (fun a b => nameLt a.name b.name) :=
        ⟨fun a b h1 h2 => absurd h2 (lt_asymm h1)⟩
      exact List.eq_of_perm_of_sorted hiperm hisort1 hisort2
    subst hcats
    subst hitems
    have hfiltered : shopFilteredItems shopId shopItems1 items1
        = shopFilteredItems shopId shopItems2 items1 := by
      unfold shopFilteredItems
      refine List.filter_congr ?_
      intro it _
      exact perm_any ((hsperm.filter _).map ShopItem.item_id) _
    have hlook : ∀ itId, lookupCount counts1 shopId itId = lookupCount counts2 shopId itId :=
      fun itId => lookupCount_perm hkperm hknd shopId itId
    unfold sheetForShop
    congr 1
    refine List.map_congr_left ?_
    intro cat _
    rw [hfiltered]
    exact categoryRows_congr shopId hlook cat _

/-- Demonstration catalog: two categories and two items, fetched in name
order, with item A in Food and item B in Drinks. -/
def demoCats : List Category := [⟨"c1", "Drinks"⟩, ⟨"c2", "Food"⟩]

/-- Demonstration items, in name order. -/
def demoItems : List Item :=
  [⟨"A", "Apple", "6", some "c2"⟩, ⟨"B", "Beer", "24", some "c1"⟩]

/-- Demonstration shop-item assignments for shop sh1. -/
def demoShopItems : List ShopItem := [⟨"sh1", "A"⟩, ⟨"sh1", "B"⟩]

/-- The same assignments fetched in the opposite order. -/
def demoShopItemsPerm : List ShopItem := [⟨"sh1", "B"⟩, ⟨"sh1", "A"⟩]

/-- Demonstration stored counts for the exported session. -/
def demoCountRows : List StockCountRow := [⟨"s1", "sh1", "B", 2, 2, "u0"⟩]

/-- Witness for C7: on the demonstration data the sheet for sh1 carries
exactly as many item rows as sh1 has assigned items, and refetching the
shop-item rows in a different order yields the identical sheet. -/
theorem downloadExcel_sheet_deterministic_witness :
    itemRowCount "sh1" demoCats demoItems demoShopItems demoCountRows
      = (shopFilteredItems "sh1" demoShopItems demoItems).length
    ∧ sheetForShop "sh1" demoCats demoItems demoShopItems demoCountRows
      = sheetForShop "sh1" demoCats demoItems demoShopItemsPerm demoCountRows
    ∧ (shopFilteredItems "sh1" demoShopItems demoItems).length = 2 := by
  have h := downloadExcel_sheet_deterministic "sh1" demoCats demoCats demoItems demoItems
    demoShopItems demoShopItemsPerm demoCountRows demoCountRows
    (by decide) (by decide) (by decide) (by decide) (by decide)
    (by decide) (by decide) (by decide) (by decide) (by decide) (by decide)
  exact ⟨h.1, h.2, by decide⟩

/-- C10: a shop with no `shop_items` rows gets a sheet with no rows at all in
the export — no show-all-items fallback — whereas the counting page's
`fetchItemsForShop` falls back to presenting every item for such a shop. -/
theorem export_empty_for_unassigned_shop (shopId : String) (cats : List Category)
    (items : List Item) (shopItems : List ShopItem) (counts : List StockCountRow)
    (h : ∀ si ∈ shopItems, si.shop_id ≠ shopId) :
    sheetForShop shopId cats items shopItems counts = []
    ∧ itemRowCount shopId cats items shopItems counts = 0
    ∧ fetchItemsForShop shopId shopItems items = items := by
  have hids : assignedItemIds shopId shopItems = [] := by
    unfold assignedItemIds
    rw [List.filter_eq_nil_iff.mpr ?_]
    · rfl
    · intro si hsi
      simpa using h si hsi
  have hfiltered : shopFilteredItems shopId shopItems items = [] := by
    unfold shopFilteredItems
    rw [hids]
    simp
  have hsheet : sheetForShop shopId cats items shopItems counts = [] := by
    unfold sheetForShop
    rw [hfiltered, List.flatten_eq_nil_iff]
    intro l hl
    rcases List.mem_map.mp hl with ⟨cat, -, rfl⟩
    rfl
  refine ⟨hsheet, ?_, ?_⟩
  · unfold itemRowCount
    rw [hsheet]
    rfl
  · unfold fetchItemsForShop
    rw [hids]
    rfl

/-- Demonstration assignments referencing only shop sh2. -/
def demoShopItemsOther : List ShopItem := [⟨"sh2", "A"⟩]

/-- Witness for C10: shop sh1, which has no assignment rows, gets an empty
sheet while the counting page shows it every item. -/
theorem export_empty_for_unassigned_shop_witness :
    (∀ si ∈ demoShopItemsOther, si.shop_id ≠ "sh1")
    ∧ sheetForShop "sh1" demoCats demoItems demoShopItemsOther demoCountRows = []
    ∧ itemRowCount "sh1" demoCats demoItems demoShopItemsOther demoCountRows = 0
    ∧ fetchItemsForShop "sh1" demoShopItemsOther demoItems = demoItems := by
  have h := export_empty_for_unassigned_shop "sh1" demoCats demoItems
    demoShopItemsOther demoCountRows (by decide)
  exact ⟨by decide, h.1, h.2.1, h.2.2⟩

/-- One parsed CSV data row of the bulk import (Name, Pack Size, Category
columns, already unquoted and trimmed of surrounding quotes). -/
structure CsvRow where
  name : String
  pack_size : String
  category : String
deriving DecidableEq, Repr

/-- Failure oracle for the database inserts attempted while processing one
row of the import. -/
structure RowOracle where
  catInsertFails : Bool
  itemInsertFails : Bool
deriving DecidableEq, Repr

/-- Import progress: category and item rows inserted into the database, and
the success and error counters. -/
structure ImportState where
  createdCats : List Category
  insertedItems : List Item
  successCount : Nat
  errorCount : Nat
deriving DecidableEq, Repr

/-- The state at the start of the import loop. -/
def initImportState : ImportState := ⟨[], [], 0, 0⟩

/-- Synthetic identifier for the n-th category created during an import (the
database generates opaque identifiers). -/
def freshCatId (n : Nat) : String := "cat-new-" ++ toString n

/-- Synthetic identifier for the n-th item inserted during an import. -/
def freshItemId (n : Nat) : String := "item-new-" ++ toString n

/-- One iteration of the import loop in `handleFileImport`.  `catsSnapshot`
is the `categories` array captured by the handler's closure when the import
started: the loop matches a row's category name case-insensitively against
this snapshot only — categories created during the same import are inserted
into the database (and scheduled into the React state) but never become
visible to this lookup.  A row with a blank name is skipped entirely.  A
failed category insert leaves the row's category empty and is not counted; a
failed item insert increments the error counter and processing continues
with the next row; a successful item insert increments the success
counter. -/
def importRow (catsSnapshot : List Category) (st : ImportState)
    (row : CsvRow) (oracle : RowOracle) : ImportState :=
  if strTrim row.name = "" then st
  else
    let pair :=
      if row.category = "" then ("", st)
      else
        match catsSnapshot.find? (fun c => strToLower c.name = strToLower row.category) with
        | some c => (c.id, st)
        | none =>
          if oracle.catInsertFails then ("", st)
          else
            (freshCatId st.createdCats.length,
              { st with createdCats :=
                  st.createdCats ++ [⟨freshCatId st.createdCats.length, row.category⟩] })
    if oracle.itemInsertFails then
      { pair.2 with errorCount := pair.2.errorCount + 1 }
    else
      { pair.2 with
        insertedItems := pair.2.insertedItems ++
          [⟨freshItemId pair.2.insertedItems.length, strTrim row.name,
            strTrim row.pack_size, if pair.1 = "" then none else some pair.1⟩],
        successCount := pair.2.successCount + 1 }

/-- The import loop of `handleFileImport` over the parsed data rows. -/
def handleFileImport (catsSnapshot : List Category)
    (rows : List (CsvRow × RowOracle)) : ImportState :=
  rows.foldl (fun st rc => importRow catsSnapshot st rc.1 rc.2) initImportState

/-- Rows for the failing input of C8: no category named Drinks exists before
the import, and both rows reference category "Drinks"; no insert fails. -/
def demoImportRows : List (CsvRow × RowOracle) :=
  [(⟨"Apple Juice", "6", "Drinks"⟩, ⟨false, false⟩),
    (⟨"Beer", "24", "Drinks"⟩, ⟨false, false⟩)]

/-- Rows exercising the per-row error handling: the middle row's item insert
fails, the others succeed. -/
def demoImportRowsErr : List (CsvRow × RowOracle) :=
  [(⟨"Apple Juice", "6", ""⟩, ⟨false, false⟩),
    (⟨"Beer", "24", ""⟩, ⟨false, true⟩),
    (⟨"Cola", "12", ""⟩, ⟨false, false⟩)]

/-- C8, evaluated at the failing input: importing two rows that both
reference the not-yet-existing category "Drinks" inserts a category named
Drinks twice — the lookup consults only the pre-import snapshot, so the
category created for the first row is not reused by the second — against the
claim that it is created exactly once and then reused.  The remaining parts
of the claim behave as stated: every row with a non-empty name is inserted
as an item and counted as a success, and a failing row only increments the
error counter while later rows still proceed. -/
theorem handleFileImport_duplicate_category :
    ((handleFileImport [] demoImportRows).createdCats.map Category.name)
      = ["Drinks", "Drinks"]
    ∧ (handleFileImport [] demoImportRows).successCount = 2
    ∧ (handleFileImport [] demoImportRows).errorCount = 0
    ∧ ((handleFileImport [] demoImportRowsErr).insertedItems.map Item.name)
      = ["Apple Juice", "Cola"]
    ∧ (handleFileImport [] demoImportRowsErr).successCount = 2
    ∧ (handleFileImport [] demoImportRowsErr).errorCount = 1 := by
  decide

end StockApp
